import Mathlib

/-!
Shallow embedding of the Open-LLM-VTuber Go backend and Vue frontend,
translated from the repository source:
  * go-backend/internal/handlers/websocket_handler.go  (WebSocketHandler)
  * the AudioHandler (ProcessAudio / processAudioData and the three stage calls)
  * vue-frontend/src/services/wsClient.js              (WebSocketService)
  * the Pinia audio store (useAudioStore)
Outbound message payloads (Go `map[string]interface` values) are abstracted
to the text that identifies them; every claim below inspects only message
types, dispatch structure, ordering and state, never payload internals.
-/

namespace OpenLLMVTuber

/-- Go struct `Message` from websocket_handler.go: the wire envelope with a
`Type` tag and a payload (`Data interface`), the payload abstracted to a string. -/
structure Message where
  type : String
  data : String
  deriving DecidableEq, Repr

/-- The single fixed reply built by `processTextInput`: a `llm-response` frame
whose Data map carries the simulated text `这是模拟的LLM响应`. -/
def llmResponse : Message := ⟨"llm-response", "这是模拟的LLM响应"⟩

/-- The `configs` frame built by `sendConfigs` (payload: the llm/asr/tts configs). -/
def configsMsg : Message := ⟨"configs", "llm asr tts"⟩

/-- The `set-model-and-conf` frame built by `sendInitConfig`
(payload: the mao_pro model_info block). -/
def setModelAndConf : Message := ⟨"set-model-and-conf", "mao_pro model_info"⟩

/-- Go `processTextInput`: logs, builds the simulated `llm-response` and sends
it to the originating connection; it calls no ASR/VAD/LLM service. -/
def processTextInput (_data : String) : List Message := [llmResponse]

/-- Go `processAudioData` (WebSocket branch): logs `处理音频数据` and does
nothing else — no frame is sent. -/
def processAudioDataWS (_data : String) : List Message := []

/-- Go `sendConfigs`: sends one `configs` frame to the originating connection. -/
def sendConfigs : List Message := [configsMsg]

/-- Go `sendInitConfig`: sends one `set-model-and-conf` frame. -/
def sendInitConfig : List Message := [setModelAndConf]

/-- The message types the Go `handleMessage` switch actually dispatches
(its four non-default cases). -/
def goRecognizedTypes : List String :=
  ["text-input", "mic-audio-data", "fetch-configs", "request-init-config"]

/-- Go `handleMessage`: the switch on `msg.Type`. The default case only logs
`未知消息类型` — no outbound frame, no state touched. The result is the list
of frames written back to the originating connection, in order. -/
def handleMessage (msg : Message) : List Message :=
  if msg.type = "text-input" then processTextInput msg.data
  else if msg.type = "mic-audio-data" then processAudioDataWS msg.data
  else if msg.type = "fetch-configs" then sendConfigs
  else if msg.type = "request-init-config" then sendInitConfig
  else []

/-- Names of the four handler functions a `handleMessage` case can dispatch to. -/
inductive HandlerFn where
  | processTextInput
  | processAudioData
  | sendConfigs
  | sendInitConfig
  deriving DecidableEq, Repr

/-- Which handler the `handleMessage` switch dispatches a message to:
`none` when the message falls into the logging default case. Each branch
mirrors the corresponding `case` of the Go switch. -/
def dispatchTarget (msg : Message) : Option HandlerFn :=
  if msg.type = "text-input" then some HandlerFn.processTextInput
  else if msg.type = "mic-audio-data" then some HandlerFn.processAudioData
  else if msg.type = "fetch-configs" then some HandlerFn.sendConfigs
  else if msg.type = "request-init-config" then some HandlerFn.sendInitConfig
  else none

/-- Modelled from the spec (§6): the fifteen inbound message types the spec
declares recognized. Used only to compare the spec against `dispatchTarget`. -/
def specRecognizedInboundTypes : List String :=
  ["mic-audio-data", "mic-audio-end", "text-input", "ai-speak-signal",
   "interrupt-signal", "fetch-history-list", "fetch-and-set-history",
   "create-new-history", "delete-history", "heartbeat",
   "add-client-to-group", "remove-client-from-group", "request-group-info",
   "request-init-config", "fetch-configs"]

/-- One iteration's input of the `HandleWebSocket` read loop:
`conn.ReadJSON` either decodes a well-formed envelope or returns an error. -/
inductive Frame where
  | wellFormed (msg : Message)
  | malformed
  deriving DecidableEq, Repr

/-- Go `HandleWebSocket` read loop: on a decode error it logs and `break`s
(the deferred `conn.Close` then closes the connection); on a well-formed frame
it dispatches via `handleMessage` and continues with the next frame. The
result is every frame written back to the client before the loop ends. -/
def readLoop : List Frame → List Message
  | [] => []
  | Frame.malformed :: _ => []
  | Frame.wellFormed m :: rest => handleMessage m ++ readLoop rest

/-- A websocket connection (`*websocket.Conn`), identified abstractly. -/
abbrev Conn := Nat

/-- Go `handleClients`, register case: `h.clients[conn] = true`. On the key
set of the map this inserts `conn` when absent and changes nothing when it is
already present. Membership order mirrors map-key insertion. -/
def registerConn (clients : List Conn) (c : Conn) : List Conn :=
  if c ∈ clients then clients else clients ++ [c]

/-- Go `handleClients`, unregister case: `if _, ok := h.clients[conn]; ok`
then `delete(h.clients, conn); conn.Close()` — a presence-checked delete;
an absent connection is left alone. -/
def unregisterConn (clients : List Conn) (c : Conn) : List Conn :=
  if c ∈ clients then clients.erase c else clients

/-- Go `handleClients`, broadcast case: `for conn := range h.clients` it
`WriteJSON`s the message to each connection; when the write fails it deletes
that connection from `h.clients` and closes it, then continues the loop.
`sendOk` is whether `WriteJSON` succeeds on a given connection (the external
transport outcome). Result: (connections that received the message,
the client set after the loop). -/
def broadcastLoop (msg : Message) (sendOk : Conn → Bool) :
    List Conn → List Conn × List Conn
  | [] => ([], [])
  | c :: rest =>
    let done := broadcastLoop msg sendOk rest
    if sendOk c then (c :: done.1, c :: done.2) else (done.1, done.2)

/-- Go struct `AudioResponse` of the AudioHandler (`Error` field omitted:
errors travel in the `Except` channel of the embedding). -/
structure AudioResponse where
  text : String
  audioURL : String
  deriving DecidableEq, Repr

/-- One call the AudioHandler makes into a stage service, with the argument
it was given — records which stages `processAudioData` invoked, in order. -/
inductive StageCall where
  | asr (audioData : List Nat) (format : String)
  | llm (input : String)
  | tts (input : String)
  deriving DecidableEq, Repr

/-- Go `AudioHandler.processAudioData`: calls the ASR service on the audio,
returns on error; calls the LLM service on the transcript, returns on error;
calls the TTS service on the reply, returns on error; otherwise returns
`AudioResponse{Text: reply, AudioURL: audioURL}`. The stage services are the
external adapter boundary, passed as parameters; the first component records
the stage calls actually made, in order. -/
def processAudioData
    (callASR : List Nat → String → Except String String)
    (callLLM : String → Except String String)
    (callTTS : String → Except String String)
    (audioData : List Nat) (format : String) :
    List StageCall × Except String AudioResponse :=
  match callASR audioData format with
  | Except.error e => ([StageCall.asr audioData format], Except.error e)
  | Except.ok text =>
    match callLLM text with
    | Except.error e =>
      ([StageCall.asr audioData format, StageCall.llm text], Except.error e)
    | Except.ok reply =>
      match callTTS reply with
      | Except.error e =>
        ([StageCall.asr audioData format, StageCall.llm text,
          StageCall.tts reply], Except.error e)
      | Except.ok audioURL =>
        ([StageCall.asr audioData format, StageCall.llm text,
          StageCall.tts reply], Except.ok ⟨reply, audioURL⟩)

/-- Go `callASRService`: the repository's mock adapter — always succeeds with
the fixed transcript `用户说的内容`. -/
def callASRService (_audioData : List Nat) (_format : String) :
    Except String String :=
  Except.ok "用户说的内容"

/-- Go `callLLMService`: the repository's mock adapter — always succeeds with
the fixed reply `AI的回复内容`. -/
def callLLMService (_inputText : String) : Except String String :=
  Except.ok "AI的回复内容"

/-- Go `callTTSService`: the repository's mock adapter — always succeeds with
the fixed audio path. -/
def callTTSService (_text : String) : Except String String :=
  Except.ok "/audio/generated.mp3"

/-- wsClient.js `maxReconnectAttempts = 5`. -/
def maxReconnectAttempts : Nat := 5

/-- The reconnection state of the frontend `WebSocketService`
(`this.reconnectAttempts`). -/
structure WSClientState where
  reconnectAttempts : Nat
  deriving DecidableEq, Repr

/-- wsClient.js `onopen` handler: resets `reconnectAttempts` to 0. -/
def onOpen (_s : WSClientState) : WSClientState := ⟨0⟩

/-- wsClient.js `onclose` handler: when `reconnectAttempts <
maxReconnectAttempts` it schedules a reconnection (the `setTimeout` callback
increments the counter and calls `connect`); otherwise it does nothing.
Returns the state after the handler plus its scheduled callback, and whether
a reconnection attempt was scheduled. -/
def onClose (s : WSClientState) : WSClientState × Bool :=
  if s.reconnectAttempts < maxReconnectAttempts
  then (⟨s.reconnectAttempts + 1⟩, true)
  else (s, false)

/-- A socket lifecycle event observed by the frontend client: `opened` when
`onopen` fires (a successful connection), `closed` when `onclose` fires. -/
inductive WSEvent where
  | opened
  | closed
  deriving DecidableEq, Repr

/-- Runs the wsClient handlers over a sequence of socket events, counting how
many reconnection attempts get scheduled along the way. -/
def runEvents : WSClientState → List WSEvent → WSClientState × Nat
  | s, [] => (s, 0)
  | s, WSEvent.opened :: rest => runEvents (onOpen s) rest
  | s, WSEvent.closed :: rest =>
    ((runEvents (onClose s).1 rest).1,
     (if (onClose s).2 then 1 else 0) + (runEvents (onClose s).1 rest).2)

/-- One entry of the Pinia audio store's `recentAudio` list, as built by
`addAudio` (`id: Date.now()`, `name`, `url`, `timestamp: Date.now()`). -/
structure AudioEntry where
  id : Nat
  name : String
  url : String
  timestamp : Nat
  deriving DecidableEq, Repr

/-- The Pinia audio store's state: `recentAudio`, `isProcessing`,
`currentVolume`. -/
structure AudioState where
  recentAudio : List AudioEntry
  isProcessing : Bool
  currentVolume : Nat
  deriving DecidableEq, Repr

/-- The entry `addAudio` constructs: `Date.now()` passed as `now`, the name
derived from the current list length. -/
def newAudioEntry (st : AudioState) (url : String) (now : Nat) : AudioEntry :=
  ⟨now, "Audio " ++ toString (st.recentAudio.length + 1), url, now⟩

/-- Audio store action `addAudio`: `unshift`es the new entry to the front of
`recentAudio` and, when the length then exceeds 10, `pop`s the last entry. -/
def addAudio (st : AudioState) (url : String) (now : Nat) : AudioState :=
  let pushed := newAudioEntry st url now :: st.recentAudio
  { st with recentAudio := if pushed.length > 10 then pushed.dropLast else pushed }

/-- Audio store action `setIsProcessing`. -/
def setIsProcessing (st : AudioState) (status : Bool) : AudioState :=
  { st with isProcessing := status }

/-- Audio store action `setVolume`. -/
def setVolume (st : AudioState) (volume : Nat) : AudioState :=
  { st with currentVolume := volume }

/-- Audio store action `sendAudioData`: sets `isProcessing`, calls `addAudio`
with the url, and finally clears `isProcessing` (the success path; the catch
path only logs). -/
def sendAudioData (st : AudioState) (audioUrl : String) (now : Nat) : AudioState :=
  setIsProcessing (addAudio (setIsProcessing st true) audioUrl now) false

/-! ### Theorems about the router and read loop (claims C1, C2, C4, C5, C8) -/

/-- C1 counterexample: handling a concrete `interrupt-signal` frame emits no
outbound frame at all — in particular no `interrupted` event, contradicting
the claim that the session emits `interrupted` on `interrupt-signal`. -/
theorem interrupt_signal_no_interrupted_cex :
    handleMessage ⟨"interrupt-signal", "sig"⟩ = [] ∧
    Message.mk "interrupted" "" ∉ handleMessage ⟨"interrupt-signal", "sig"⟩ := by
  refine ⟨rfl, ?_⟩
  simp [handleMessage]

/-- C1 (amended): an `interrupt-signal` frame falls into `handleMessage`'s
default case: it is only logged, dispatched to no handler, produces no
outbound frame (so in particular no `interrupted`, `tts-chunk` or
`llm-partial` event), and the read loop continues with the next frame. The
handler keeps no pipeline runs or sequence numbers, so interrupting is always
a no-op. -/
theorem interrupt_signal_noop (d : String) (rest : List Frame) :
    handleMessage ⟨"interrupt-signal", d⟩ = [] ∧
    dispatchTarget ⟨"interrupt-signal", d⟩ = none ∧
    readLoop (Frame.wellFormed ⟨"interrupt-signal", d⟩ :: rest) = readLoop rest := by
  refine ⟨rfl, rfl, ?_⟩
  simp [readLoop, handleMessage]

/-- C2 counterexample: a concrete `text-input` frame produces exactly the one
fixed `llm-response` frame; the output contains no `llm-final` and no
`tts-done` frame, contradicting the claimed llm-partial/llm-final/tts-chunk/
tts-done event sequence. -/
theorem text_input_no_stream_events_cex :
    handleMessage ⟨"text-input", "hello"⟩ = [llmResponse] ∧
    (handleMessage ⟨"text-input", "hello"⟩).filter
      (fun m => m.type == "llm-final") = [] ∧
    (handleMessage ⟨"text-input", "hello"⟩).filter
      (fun m => m.type == "tts-done") = [] := by
  refine ⟨rfl, ?_, ?_⟩ <;> rfl

/-- C2 (amended): every `text-input` frame is dispatched to
`processTextInput`, which invokes no ASR/VAD/LLM/TTS service and replies to
the originating client with exactly one `llm-response` frame carrying the
fixed simulated text. -/
theorem text_input_single_llm_response (d : String) :
    handleMessage ⟨"text-input", d⟩ = [llmResponse] ∧
    llmResponse.type = "llm-response" ∧
    dispatchTarget ⟨"text-input", d⟩ = some HandlerFn.processTextInput :=
  ⟨rfl, rfl, rfl⟩

/-- C4: a frame whose type is none of the four types the `handleMessage`
switch recognizes hits the logging default case: no outbound frame, no
dispatch, and the read loop continues with the next frame. -/
theorem unknown_type_is_noop (msg : Message) (rest : List Frame)
    (h : msg.type ∉ goRecognizedTypes) :
    handleMessage msg = [] ∧
    dispatchTarget msg = none ∧
    readLoop (Frame.wellFormed msg :: rest) = readLoop rest := by
  simp [goRecognizedTypes, List.mem_cons] at h
  obtain ⟨h1, h2, h3, h4⟩ := h
  refine ⟨?_, ?_, ?_⟩ <;>
    simp [readLoop, handleMessage, dispatchTarget, h1, h2, h3, h4]

/-- C4 witness: the unknown type `foo` concretely. -/
theorem unknown_type_is_noop_witness :
    handleMessage ⟨"foo", ""⟩ = [] ∧
    dispatchTarget ⟨"foo", ""⟩ = none ∧
    readLoop [Frame.wellFormed ⟨"foo", ""⟩] = readLoop [] :=
  unknown_type_is_noop ⟨"foo", ""⟩ [] (by decide)

/-- C5 counterexample: a malformed frame makes the read loop break — the
well-formed `fetch-configs` frame behind it is never handled (while on its
own it would produce the `configs` reply), contradicting the claim that a
malformed frame is tolerated and the session continues. -/
theorem malformed_frame_terminates_cex :
    readLoop [Frame.malformed, Frame.wellFormed ⟨"fetch-configs", ""⟩] = [] ∧
    readLoop [Frame.wellFormed ⟨"fetch-configs", ""⟩] = [configsMsg] :=
  ⟨rfl, rfl⟩

/-- C5 (amended): a frame that fails to decode makes the read loop log the
error and break, so the connection is closed and no later frame is ever
dispatched; a well-formed frame (even of unknown type) is dispatched and the
loop continues. -/
theorem malformed_frame_breaks_loop (rest : List Frame) (m : Message) :
    readLoop (Frame.malformed :: rest) = [] ∧
    readLoop (Frame.wellFormed m :: rest) = handleMessage m ++ readLoop rest :=
  ⟨rfl, rfl⟩

/-- C8 counterexample: `heartbeat` is among the fifteen inbound types the
spec declares recognized, yet the `handleMessage` switch dispatches it to no
handler (it falls into the logging default case). -/
theorem heartbeat_not_dispatched_cex :
    "heartbeat" ∈ specRecognizedInboundTypes ∧
    dispatchTarget ⟨"heartbeat", ""⟩ = none := by
  refine ⟨?_, rfl⟩
  simp [specRecognizedInboundTypes]

/-- C8 (amended): the switch dispatches exactly four of the fifteen spec
types — `text-input`, `mic-audio-data`, `fetch-configs`,
`request-init-config` — each to its own single handler; every other spec
type falls into the logging default case and reaches no handler. -/
theorem dispatch_four_of_fifteen (d : String) :
    dispatchTarget ⟨"text-input", d⟩ = some HandlerFn.processTextInput ∧
    dispatchTarget ⟨"mic-audio-data", d⟩ = some HandlerFn.processAudioData ∧
    dispatchTarget ⟨"fetch-configs", d⟩ = some HandlerFn.sendConfigs ∧
    dispatchTarget ⟨"request-init-config", d⟩ = some HandlerFn.sendInitConfig ∧
    (∀ t : String, t ∈ specRecognizedInboundTypes → t ∉ goRecognizedTypes →
      dispatchTarget ⟨t, d⟩ = none) := by
  refine ⟨rfl, rfl, rfl, rfl, ?_⟩
  intro t _hspec hgo
  simp [goRecognizedTypes, List.mem_cons] at hgo
  obtain ⟨h1, h2, h3, h4⟩ := hgo
  simp [dispatchTarget, h1, h2, h3, h4]

/-- C8 witness: `text-input` is dispatched, `heartbeat` is not. -/
theorem dispatch_four_of_fifteen_witness :
    dispatchTarget ⟨"text-input", "x"⟩ = some HandlerFn.processTextInput ∧
    dispatchTarget ⟨"heartbeat", "x"⟩ = none :=
  ⟨(dispatch_four_of_fifteen "x").1,
   (dispatch_four_of_fifteen "x").2.2.2.2 "heartbeat" (by decide) (by decide)⟩

/-! ### Theorems about the audio pipeline handler (claim C3) -/

/-- C3 counterexample: an ASR failure and an LLM failure with the same
adapter error message produce identical results from `processAudioData` — the
returned error is the stage's error propagated unchanged, so the error result
does not name the failing stage as the claim requires. -/
theorem stage_error_unnamed_cex :
    (processAudioData (fun _ _ => Except.error "service unavailable")
      callLLMService callTTSService [1] "wav").2 =
      Except.error "service unavailable" ∧
    (processAudioData callASRService (fun _ => Except.error "service unavailable")
      callTTSService [1] "wav").2 =
      Except.error "service unavailable" ∧
    (processAudioData (fun _ _ => Except.error "service unavailable")
      callLLMService callTTSService [1] "wav").2 =
    (processAudioData callASRService (fun _ => Except.error "service unavailable")
      callTTSService [1] "wav").2 :=
  ⟨rfl, rfl, rfl⟩

/-- C3 (amended): `processAudioData` invokes the stages in the order ASR,
then LLM on the ASR transcript, then TTS on the LLM reply; when a stage
fails, no later stage is invoked and the run aborts with exactly that stage's
error, propagated unchanged (the result does not name the failing stage);
on success the response carries the LLM reply and the TTS audio URL. The
HTTP audio handler holds no session state, so no state transition occurs. -/
theorem processAudioData_order_and_abort
    (callASR : List Nat → String → Except String String)
    (callLLM : String → Except String String)
    (callTTS : String → Except String String)
    (a : List Nat) (f : String) :
    (∀ e, callASR a f = Except.error e →
      processAudioData callASR callLLM callTTS a f =
        ([StageCall.asr a f], Except.error e)) ∧
    (∀ t e, callASR a f = Except.ok t → callLLM t = Except.error e →
      processAudioData callASR callLLM callTTS a f =
        ([StageCall.asr a f, StageCall.llm t], Except.error e)) ∧
    (∀ t r e, callASR a f = Except.ok t → callLLM t = Except.ok r →
      callTTS r = Except.error e →
      processAudioData callASR callLLM callTTS a f =
        ([StageCall.asr a f, StageCall.llm t, StageCall.tts r],
         Except.error e)) ∧
    (∀ t r u, callASR a f = Except.ok t → callLLM t = Except.ok r →
      callTTS r = Except.ok u →
      processAudioData callASR callLLM callTTS a f =
        ([StageCall.asr a f, StageCall.llm t, StageCall.tts r],
         Except.ok ⟨r, u⟩)) := by
  refine ⟨?_, ?_, ?_, ?_⟩
  · intro e h1
    simp [processAudioData, h1]
  · intro t e h1 h2
    simp [processAudioData, h1, h2]
  · intro t r e h1 h2 h3
    simp [processAudioData, h1, h2, h3]
  · intro t r u h1 h2 h3
    simp [processAudioData, h1, h2, h3]

/-- C3 witness: the repository's mock adapters all succeed, so a run invokes
ASR, LLM on the mock transcript, TTS on the mock reply, and returns the mock
reply with the mock audio path. -/
theorem processAudioData_order_and_abort_witness :
    processAudioData callASRService callLLMService callTTSService [0] "wav" =
      ([StageCall.asr [0] "wav", StageCall.llm "用户说的内容",
        StageCall.tts "AI的回复内容"],
       Except.ok ⟨"AI的回复内容", "/audio/generated.mp3"⟩) :=
  (processAudioData_order_and_abort callASRService callLLMService
    callTTSService [0] "wav").2.2.2 _ _ _ rfl rfl rfl

/-! ### Theorems about client registration and broadcast (claims C6, C7) -/

/-- Helper: the broadcast loop delivers to, and retains, exactly the
connections whose `WriteJSON` succeeds. -/
theorem broadcastLoop_eq_filter (msg : Message) (sendOk : Conn → Bool) :
    ∀ l : List Conn,
      broadcastLoop msg sendOk l = (l.filter sendOk, l.filter sendOk) := by
  intro l
  induction l with
  | nil => rfl
  | cons c rest ih =>
    by_cases h : sendOk c = true
    · simp [broadcastLoop, ih, List.filter_cons, h]
    · simp [broadcastLoop, ih, List.filter_cons, h]

/-- C6: in a broadcast where the sends to exactly the members with
`sendOk = false` fail, every member whose send succeeds still receives the
message, exactly the failing members are removed from the client set (they
are the ones deleted and closed), and the loop visits all members — a
member's delivery is independent of failures elsewhere in the set. -/
theorem broadcast_partial_failure_isolation
    (msg : Message) (sendOk : Conn → Bool) (l : List Conn) :
    (broadcastLoop msg sendOk l).1 = l.filter sendOk ∧
    (broadcastLoop msg sendOk l).2 = l.filter sendOk ∧
    (∀ c, c ∈ l → sendOk c = true →
      c ∈ (broadcastLoop msg sendOk l).1 ∧ c ∈ (broadcastLoop msg sendOk l).2) ∧
    (∀ c, c ∈ l → sendOk c = false → c ∉ (broadcastLoop msg sendOk l).2) := by
  have hfil := broadcastLoop_eq_filter msg sendOk l
  refine ⟨?_, ?_, ?_, ?_⟩
  · rw [hfil]
  · rw [hfil]
  · intro c hc hok
    rw [hfil]
    exact ⟨List.mem_filter.mpr ⟨hc, hok⟩, List.mem_filter.mpr ⟨hc, hok⟩⟩
  · intro c hc hfail
    rw [hfil]
    intro hmem
    have := (List.mem_filter.mp hmem).2
    simp [hfail] at this

/-- C6 witness: broadcasting to clients 0, 1, 2 where only the send to 1
fails — 0 and 2 receive the message and 1 is removed. -/
theorem broadcast_partial_failure_isolation_witness :
    0 ∈ (broadcastLoop llmResponse (fun c => c != 1) [0, 1, 2]).1 ∧
    2 ∈ (broadcastLoop llmResponse (fun c => c != 1) [0, 1, 2]).1 ∧
    1 ∉ (broadcastLoop llmResponse (fun c => c != 1) [0, 1, 2]).2 :=
  ⟨((broadcast_partial_failure_isolation llmResponse (fun c => c != 1)
      [0, 1, 2]).2.2.1 0 (by decide) (by decide)).1,
   ((broadcast_partial_failure_isolation llmResponse (fun c => c != 1)
      [0, 1, 2]).2.2.1 2 (by decide) (by decide)).1,
   (broadcast_partial_failure_isolation llmResponse (fun c => c != 1)
      [0, 1, 2]).2.2.2 1 (by decide) (by decide)⟩

/-- Helper: erasing an element appended to a list it does not occur in
returns the original list. -/
theorem erase_append_singleton (c : Conn) :
    ∀ l : List Conn, c ∉ l → (l ++ [c]).erase c = l := by
  intro l
  induction l with
  | nil => intro _; simp
  | cons a rest ih =>
    intro h
    have hne : c ≠ a := fun hca => h (hca ▸ List.mem_cons_self a rest)
    have hrest : c ∉ rest := fun hr => h (List.mem_cons_of_mem a hr)
    simp only [List.cons_append, List.erase_cons]
    rw [if_neg (fun hac => hne (beq_iff_eq.mp hac).symm), ih hrest]

/-- C7 counterexample: with client 0 already registered, registering 0 again
(a no-op) and then unregistering 0 leaves the set empty — the prior state
`[0]` is not restored, contradicting the claimed round-trip for every
membership state. -/
theorem register_unregister_roundtrip_cex :
    unregisterConn (registerConn [0] 0) 0 = [] ∧
    ([] : List Conn) ≠ [0] := by
  refine ⟨?_, by decide⟩
  simp [registerConn, unregisterConn]

/-- C7 (amended): registering an already-present connection leaves the
client set unchanged and unregistering an absent connection is a no-op (both
idempotent); register followed by unregister of the same connection restores
the prior client set provided the connection was not already present —
otherwise the pair removes it. The code keeps a single global client set,
not named groups. -/
theorem membership_idempotent_roundtrip (l : List Conn) (c : Conn) :
    (c ∈ l → registerConn l c = l) ∧
    (c ∉ l → unregisterConn l c = l) ∧
    (c ∉ l → unregisterConn (registerConn l c) c = l) := by
  refine ⟨?_, ?_, ?_⟩
  · intro h
    simp [registerConn, h]
  · intro h
    simp [unregisterConn, h]
  · intro h
    have hreg : registerConn l c = l ++ [c] := by simp [registerConn, h]
    rw [hreg]
    have hmem : c ∈ l ++ [c] := List.mem_append_right l (List.mem_singleton.mpr rfl)
    simp only [unregisterConn, if_pos hmem]
    exact erase_append_singleton c l h

/-- C7 witness: register of a present member and the absent round-trip,
concretely. -/
theorem membership_idempotent_roundtrip_witness :
    registerConn [5] 5 = [5] ∧
    unregisterConn [5] 7 = [5] ∧
    unregisterConn (registerConn [5] 7) 7 = [5] :=
  ⟨(membership_idempotent_roundtrip [5] 5).1 (by decide),
   (membership_idempotent_roundtrip [5] 7).2.1 (by decide),
   (membership_idempotent_roundtrip [5] 7).2.2 (by decide)⟩

/-! ### Theorems about the frontend wsClient and audio store (claims C9, C10) -/

/-- Helper: over a run of close events with no successful open, the number of
reconnection attempts scheduled is bounded by what remains of the budget. -/
theorem runEvents_closed_bound :
    ∀ (evs : List WSEvent) (s : WSClientState),
      (∀ e ∈ evs, e = WSEvent.closed) →
      (runEvents s evs).2 ≤ maxReconnectAttempts - s.reconnectAttempts := by
  intro evs
  induction evs with
  | nil =>
    intro s _
    simp [runEvents]
  | cons e rest ih =>
    intro s h
    have he : e = WSEvent.closed := h e (List.mem_cons_self e rest)
    subst he
    have hrest : ∀ x ∈ rest, x = WSEvent.closed :=
      fun x hx => h x (List.mem_cons_of_mem _ hx)
    by_cases hlt : s.reconnectAttempts < maxReconnectAttempts
    · have hon : onClose s = (⟨s.reconnectAttempts + 1⟩, true) := by
        simp [onClose, hlt]
      have hih := ih ⟨s.reconnectAttempts + 1⟩ hrest
      simp only [runEvents, hon, if_pos]
      simp only [WSClientState.mk.injEq] at hih ⊢
      omega
    · have hon : onClose s = (s, false) := by
        simp [onClose, hlt]
      have hih := ih s hrest
      simp only [runEvents, hon]
      simp
      omega

/-- C9: the frontend client's reconnection is bounded — `onopen` resets the
counter to 0; `onclose` schedules a reconnection (incrementing the counter)
exactly while the counter is below `maxReconnectAttempts` (5) and otherwise
does nothing; hence any run of close events with no intervening successful
open schedules at most 5 reconnection attempts. -/
theorem wsclient_reconnect_bounded :
    (∀ s, onOpen s = ⟨0⟩) ∧
    (∀ s : WSClientState, s.reconnectAttempts < maxReconnectAttempts →
      onClose s = (⟨s.reconnectAttempts + 1⟩, true)) ∧
    (∀ s : WSClientState, maxReconnectAttempts ≤ s.reconnectAttempts →
      onClose s = (s, false)) ∧
    (∀ evs : List WSEvent, (∀ e ∈ evs, e = WSEvent.closed) →
      (runEvents ⟨0⟩ evs).2 ≤ maxReconnectAttempts) := by
  refine ⟨fun s => rfl, ?_, ?_, ?_⟩
  · intro s hlt
    simp [onClose, hlt]
  · intro s hge
    simp [onClose, Nat.not_lt.mpr hge]
  · intro evs h
    have := runEvents_closed_bound evs ⟨0⟩ h
    simpa using this

/-- C9 witness: seven consecutive closes from a fresh client schedule at most
five reconnection attempts; close increments below the cap and is a no-op at
it. -/
theorem wsclient_reconnect_bounded_witness :
    onOpen ⟨3⟩ = ⟨0⟩ ∧
    onClose ⟨2⟩ = (⟨3⟩, true) ∧
    onClose ⟨5⟩ = (⟨5⟩, false) ∧
    (runEvents ⟨0⟩ (List.replicate 7 WSEvent.closed)).2 ≤ maxReconnectAttempts :=
  ⟨wsclient_reconnect_bounded.1 ⟨3⟩,
   wsclient_reconnect_bounded.2.1 ⟨2⟩ (by decide),
   wsclient_reconnect_bounded.2.2.1 ⟨5⟩ (by decide),
   wsclient_reconnect_bounded.2.2.2 (List.replicate 7 WSEvent.closed) (by decide)⟩

/-- Helper: `addAudio` keeps `recentAudio` at no more than 10 entries. -/
theorem addAudio_length_le (st : AudioState) (url : String) (now : Nat)
    (h : st.recentAudio.length ≤ 10) :
    (addAudio st url now).recentAudio.length ≤ 10 := by
  simp only [addAudio]
  split
  · rename_i hgt
    simp only [List.length_dropLast, List.length_cons]
    omega
  · rename_i hgt
    simp only [List.length_cons] at hgt ⊢
    omega

/-- Helper: `addAudio` leaves the new entry at the front of `recentAudio`. -/
theorem addAudio_head (st : AudioState) (url : String) (now : Nat)
    (h : st.recentAudio.length ≤ 10) :
    (addAudio st url now).recentAudio.head? = some (newAudioEntry st url now) := by
  simp only [addAudio]
  split
  · rename_i hgt
    have hlen : st.recentAudio.length = 10 := by
      simp only [List.length_cons] at hgt
      omega
    obtain ⟨r, rs, hrr⟩ : ∃ r rs, st.recentAudio = r :: rs := by
      cases hrec : st.recentAudio with
      | nil => rw [hrec] at hlen; simp at hlen
      | cons r rs => exact ⟨r, rs, rfl⟩
    rw [hrr]
    rfl
  · rfl

/-- C10: from any state with at most 10 recent audio entries, `addAudio`
prepends the new entry at the front and keeps the list at no more than 10
entries; `setIsProcessing` and `setVolume` do not touch the list; and
`sendAudioData` (which calls `addAudio`) also preserves the bound — so the
invariant `recentAudio.length ≤ 10` holds after every store action and the
most recent entry is always first. -/
theorem audio_store_bounded (st : AudioState) (url : String) (now : Nat)
    (b : Bool) (v : Nat) (h : st.recentAudio.length ≤ 10) :
    (addAudio st url now).recentAudio.length ≤ 10 ∧
    (addAudio st url now).recentAudio.head? = some (newAudioEntry st url now) ∧
    (setIsProcessing st b).recentAudio = st.recentAudio ∧
    (setVolume st v).recentAudio = st.recentAudio ∧
    (sendAudioData st url now).recentAudio.length ≤ 10 := by
  refine ⟨addAudio_length_le st url now h, addAudio_head st url now h, rfl, rfl, ?_⟩
  show (addAudio (setIsProcessing st true) url now).recentAudio.length ≤ 10
  exact addAudio_length_le (setIsProcessing st true) url now h

/-- C10 witness: the actions applied to a concrete store state. -/
theorem audio_store_bounded_witness :
    (addAudio ⟨[], false, 80⟩ "u" 1).recentAudio.length ≤ 10 ∧
    (addAudio ⟨[], false, 80⟩ "u" 1).recentAudio.head? =
      some (newAudioEntry ⟨[], false, 80⟩ "u" 1) ∧
    (sendAudioData ⟨[], false, 80⟩ "u" 1).recentAudio.length ≤ 10 :=
  ⟨(audio_store_bounded ⟨[], false, 80⟩ "u" 1 true 50 (by decide)).1,
   (audio_store_bounded ⟨[], false, 80⟩ "u" 1 true 50 (by decide)).2.1,
   (audio_store_bounded ⟨[], false, 80⟩ "u" 1 true 50 (by decide)).2.2.2.2⟩

end OpenLLMVTuber
